import Mathlib

/-!
Shallow embedding of the repository-file reconciliation core of
terraform-provider-git: the existence probe, auth resolver, branch
selection, the retry bodies of Create/Update/Delete, Read/ReadFile,
ImportState and the drift-freeze plan modifier, together with theorems
settling the frozen claims about them.
-/

namespace TPGit

/-- Outcome of the os.Stat call on the joined workspace path: a stat that
succeeded (carrying whether the entry is a directory), a stat that failed
with a not-exist error (carrying the error text), or a stat that failed
with any other error such as permission denied. -/
inductive StatResult
  | statOk (isDir : Bool)
  | errNotExist (msg : String)
  | errOther (msg : String)
  deriving DecidableEq

/-- True exactly on the errOther constructor. -/
def StatResult.isOtherError : StatResult → Bool
  | .errOther _ => true
  | _ => false

/-- FileExists from repository_file.go lines 453-462. The Go function
returns a pair (err, found); we model err as an optional message. When the
stat fails with an error that is not a not-exist error, the Go code falls
through the os.IsNotExist check with info still nil and calls info.IsDir,
dereferencing a nil pointer; that crash is modelled as none. -/
def FileExists : StatResult → Option (Option String × Bool)
  | .errNotExist m => some (some m, false)
  | .statOk true => some (some "file is a directory", false)
  | .statOk false => some (none, true)
  | .errOther _ => none

/-- The http credential block of the provider configuration, fields taken
through ValueString and ValueBool. -/
structure Http where
  username : String
  password : String
  insecureHttpAllowed : Bool
  certificateAuthority : String
  deriving DecidableEq

/-- The ssh credential block of the provider configuration. -/
structure Ssh where
  username : String
  password : String
  privateKey : String
  deriving DecidableEq

/-- Transport of the resolved git.AuthOptions. -/
inductive Transport
  | tHTTP
  | tHTTPS
  | tSSH
  deriving DecidableEq

/-- The git.AuthOptions value built by getAuthOpts; fields that a scheme
does not populate are none. -/
structure AuthOptions where
  transport : Transport
  username : String
  password : String
  caFile : Option String
  identity : Option String
  knownHosts : Option String
  deriving DecidableEq

/-- Outcome of the sourcesecret.ScanHostKey network call, an oracle input
to getAuthOpts. -/
inductive ScanResult
  | scanOk (knownHosts : String)
  | scanErr (msg : String)
  deriving DecidableEq

/-- Result of getAuthOpts: an AuthOptions value, an error return, or the
crash that happens when a case dereferences a nil credential block
pointer. -/
inductive AuthResult
  | authOk (opts : AuthOptions)
  | authErr (msg : String)
  | nilPanic
  deriving DecidableEq

/-- getAuthOpts from src/unnamed/part_001 lines 241-274. The switch is on
the URL scheme. The http and https cases read h.Username and h.Password
with no nil check, and the ssh case reads s.PrivateKey with no nil check,
so a missing block is a nil pointer dereference, modelled as nilPanic. -/
def getAuthOpts (scheme : String) (h : Option Http) (s : Option Ssh)
    (scan : ScanResult) : AuthResult :=
  if scheme = "http" then
    match h with
    | none => .nilPanic
    | some hb => .authOk ⟨.tHTTP, hb.username, hb.password, none, none, none⟩
  else if scheme = "https" then
    match h with
    | none => .nilPanic
    | some hb =>
        .authOk ⟨.tHTTPS, hb.username, hb.password,
          some hb.certificateAuthority, none, none⟩
  else if scheme = "ssh" then
    match s with
    | none => .nilPanic
    | some sb =>
        if sb.privateKey ≠ "" then
          match scan with
          | .scanErr m => .authErr m
          | .scanOk kh =>
              .authOk ⟨.tSSH, sb.username, sb.password, none,
                some sb.privateKey, some kh⟩
        else .authErr "ssh scheme cannot be used without private key"
  else .authErr ("scheme \x22" ++ scheme ++ "\x22 is not supported")

/-- Branch value computed at the Create, Update and Delete call sites
(repository_file.go lines 193-196, 285-288 and 348-351): the provider
level branch, falling back to the resource attribute when the provider
branch is empty. -/
def callSiteBranch (prdBranch dataBranch : String) : String :=
  if prdBranch = "" then dataBranch else prdBranch

/-- Default applied inside GetGitClient (src/unnamed/part_001 lines
230-233) to the branch it is about to clone: substitute "main" when the
branch is empty. -/
def resolveCheckoutBranch (branch : String) : String :=
  if branch = "" then "main" else branch

/-- Branch checked out by the session opened from Create, Update or
Delete: the call-site selection composed with the GetGitClient default. -/
def checkedOutBranch (prdBranch dataBranch : String) : String :=
  resolveCheckoutBranch (callSiteBranch prdBranch dataBranch)

/-- Branch checked out by the session opened from ReadFile
(repository_file.go line 431), which passes the resource branch attribute
directly. -/
def readCheckoutBranch (dataBranch : String) : String :=
  resolveCheckoutBranch dataBranch

/-- Outcome of an external step that returns only an error (GetGitClient,
os.Remove, client.Commit, client.Push). -/
inductive StepRes
  | stepOk
  | stepErr (msg : String)
  deriving DecidableEq

/-- Outcome of os.ReadFile: the bytes read, or an error. -/
inductive ReadRes
  | bytes (content : String)
  | readErr (msg : String)
  deriving DecidableEq

/-- Oracle describing the outcomes of the external calls one lifecycle
operation can make; fields an operation does not reach are ignored. -/
structure OpEnv where
  clientResult : StepRes
  statResult : StatResult
  removeResult : StepRes
  commitResult : StepRes
  pushResult : StepRes
  readResult : ReadRes
  deriving DecidableEq

/-- Classified result of one retry-body attempt, mirroring the
helper/retry package values: nil, NonRetryableError, RetryableError, plus
the crash case propagated from FileExists. -/
inductive RetryOutcome
  | done
  | nonRetryable (msg : String)
  | retryable (msg : String)
  | crashed
  deriving DecidableEq

/-- Trace of one retry-body attempt: its classified outcome, which steps
were reached, and the files map handed to client.Commit. -/
structure AttemptTrace where
  outcome : RetryOutcome
  sessionOpened : Bool
  removeAttempted : Bool
  commitAttempted : Bool
  pushAttempted : Bool
  files : List (String × String)
  deriving DecidableEq

/-- Shared tail of the Create and Update retry bodies: client.Commit then
client.Push; a commit error is wrapped NonRetryable, a push error
Retryable. Returns the outcome and whether push was attempted. -/
def commitPushStep (c p : StepRes) : RetryOutcome × Bool :=
  match c with
  | .stepErr e => (.nonRetryable e, false)
  | .stepOk =>
      match p with
      | .stepErr e => (.retryable e, true)
      | .stepOk => (.done, true)

/-- Retry body of Create (repository_file.go lines 188-222): build the
files map from the desired path and content, open the session, os.Stat the
joined path directly (a non-not-exist stat error is NonRetryable), fail
NonRetryable with the override message when the stat succeeded and
overrideOnCreate is false, otherwise commit and push. Note that the
branching never reads the existing file content. -/
def createAttempt (filePath content : String) (overrideOnCreate : Bool)
    (env : OpEnv) : AttemptTrace :=
  let files := [(filePath, content)]
  match env.clientResult with
  | .stepErr e => ⟨.nonRetryable e, false, false, false, false, files⟩
  | .stepOk =>
      match env.statResult with
      | .errOther m => ⟨.nonRetryable m, true, false, false, false, files⟩
      | .statOk _ =>
          if overrideOnCreate then
            let r := commitPushStep env.commitResult env.pushResult
            ⟨r.1, true, false, true, r.2, files⟩
          else
            ⟨.nonRetryable "cannot override existing file",
              true, false, false, false, files⟩
      | .errNotExist _ =>
          let r := commitPushStep env.commitResult env.pushResult
          ⟨r.1, true, false, true, r.2, files⟩

/-- Retry body of Update (repository_file.go lines 284-314): open the
session, probe with FileExists (discarding the returned error value), fail
NonRetryable with the fixed message when the probe reports not found,
otherwise commit the files map and push. The FileExists crash case
propagates as crashed. -/
def updateAttempt (filePath content : String) (env : OpEnv) : AttemptTrace :=
  let files := [(filePath, content)]
  match env.clientResult with
  | .stepErr e => ⟨.nonRetryable e, false, false, false, false, files⟩
  | .stepOk =>
      match FileExists env.statResult with
      | none => ⟨.crashed, true, false, false, false, files⟩
      | some (_, false) =>
          ⟨.nonRetryable "File Doesn\x27t Exist", true, false, false, false, files⟩
      | some (_, true) =>
          let r := commitPushStep env.commitResult env.pushResult
          ⟨r.1, true, false, true, r.2, files⟩

/-- Retry body of Delete (repository_file.go lines 347-379): open the
session, probe with FileExists; when the probe reports not found the body
returns nil immediately (skip), otherwise os.Remove, commit with no files,
and push. -/
def deleteAttempt (env : OpEnv) : AttemptTrace :=
  match env.clientResult with
  | .stepErr e => ⟨.nonRetryable e, false, false, false, false, []⟩
  | .stepOk =>
      match FileExists env.statResult with
      | none => ⟨.crashed, true, false, false, false, []⟩
      | some (_, false) => ⟨.done, true, false, false, false, []⟩
      | some (_, true) =>
          match env.removeResult with
          | .stepErr e => ⟨.nonRetryable e, true, true, false, false, []⟩
          | .stepOk =>
              let r := commitPushStep env.commitResult env.pushResult
              ⟨r.1, true, true, true, r.2, []⟩

/-- Final result of a whole lifecycle operation after the retry envelope. -/
inductive FinalResult
  | success
  | failure (msg : String)
  | crashed
  deriving DecidableEq

/-- Modelled from the spec: the deadline-bounded retry envelope of the
third-party retry helper wrapped around the attempt bodies (its source is
not part of this repository). The list holds the classified outcome of
each successive attempt the deadline admits; nil stops with success, a
NonRetryableError stops with that error, a RetryableError retries until
the deadline elapses after the last admitted attempt, at which point the
last error is surfaced. -/
def retryLoop : List RetryOutcome → FinalResult
  | [] => .failure "deadline elapsed"
  | [a] =>
      match a with
      | .done => .success
      | .nonRetryable m => .failure m
      | .retryable m => .failure m
      | .crashed => .crashed
  | a :: b :: rest =>
      match a with
      | .done => .success
      | .nonRetryable m => .failure m
      | .retryable _ => retryLoop (b :: rest)
      | .crashed => .crashed

/-- The fields of RepositoryFileResourceModel that the read path touches,
each taken through ValueString. -/
structure FileModel where
  id : String
  branch : String
  path : String
  content : String
  deriving DecidableEq

/-- Result of ReadFile: the possibly updated model, the error diagnostics
added (title, detail pairs), and whether the FileExists crash occurred. -/
structure ReadFileTrace where
  data : FileModel
  diags : List (String × String)
  crashed : Bool
  deriving DecidableEq

/-- ReadFile from repository_file.go lines 430-451: open a session for the
model branch, probe the path joined from the workspace and the id field
with FileExists, and on each failure add an error diagnostic and return
with the model unchanged; on success read the bytes, set path to id and
content to the bytes. The identifier field is never cleared. -/
def ReadFile (data : FileModel) (env : OpEnv) : ReadFileTrace :=
  match env.clientResult with
  | .stepErr e => ⟨data, [("Git Client Error", e)], false⟩
  | .stepOk =>
      match FileExists env.statResult with
      | none => ⟨data, [], true⟩
      | some (errOpt, false) =>
          ⟨data, [("File Doesn\x27t Exist", errOpt.getD "")], false⟩
      | some (_, true) =>
          match env.readResult with
          | .readErr e => ⟨data, [("Error Reading File", e)], false⟩
          | .bytes b => ⟨{ data with path := data.id, content := b }, [], false⟩

/-- Result of the Read entry point: the value persisted under the private
key IgnoreUpdates, whether a git session was requested, the state written
back, the diagnostics, and the crash flag. -/
structure ReadTrace where
  privateFlag : String
  sessionRequested : Bool
  state : FileModel
  diags : List (String × String)
  crashed : Bool
  deriving DecidableEq

/-- Read from repository_file.go lines 233-258: when the provider is
configured to ignore updates it persists "true", sets the state to the
prior data and returns before any session is opened; otherwise it persists
"false", runs ReadFile and writes the resulting data back as state. -/
def Read (ignoreUpdates : Bool) (data : FileModel) (env : OpEnv) : ReadTrace :=
  if ignoreUpdates then
    ⟨"true", false, data, [], false⟩
  else
    let r := ReadFile data env
    ⟨"false", true, r.data, r.diags, r.crashed⟩

/-- Recursive core of strings.Cut for the separator colon: returns the
characters before the first colon and the characters after it, or none
when the list holds no colon. -/
def cutColon : List Char → Option (List Char × List Char)
  | [] => none
  | c :: rest =>
      if c = ':' then some ([], rest)
      else
        match cutColon rest with
        | none => none
        | some pr => some (c :: pr.1, pr.2)

/-- strings.Cut with separator colon as used by ImportState
(repository_file.go line 388): (before, after, found); when the separator
does not occur it returns the whole string, the empty string and false. -/
def stringsCut (s : String) : String × String × Bool :=
  match cutColon s.data with
  | some pr => (⟨pr.1⟩, ⟨pr.2⟩, true)
  | none => (s, "", false)

/-- Result of ImportState: the diagnostics, whether the imported attribute
set was written, whether a git session was requested, the attribute values
written, and the crash flag. -/
structure ImportTrace where
  diags : List (String × String)
  stateSet : Bool
  sessionRequested : Bool
  branch : String
  id : String
  path : String
  content : String
  overrideOnCreate : Bool
  authorName : String
  message : String
  crashed : Bool
  deriving DecidableEq

/-- ImportState from repository_file.go lines 387-428: cut the request id
at the first colon; when no colon is found add the Invalid ID error, and
the HasError check after the timeouts read (lines 403-405) then returns
before any session is opened; otherwise seed a model with id set to the
part after the colon and branch to the part before it, run ReadFile, and
only when ReadFile added no error diagnostic emit the attribute set
branch, id, path, content, overrideOnCreate true and the default author
name and message. -/
def ImportState (reqID : String) (env : OpEnv) : ImportTrace :=
  let cut := stringsCut reqID
  let b := cut.1
  let p := cut.2.1
  if cut.2.2 then
    let r := ReadFile ⟨p, b, "", ""⟩ env
    if r.crashed then
      ⟨r.diags, false, true, "", "", "", "", false, "", "", true⟩
    else if r.diags ≠ [] then
      ⟨r.diags, false, true, "", "", "", "", false, "", "", false⟩
    else
      ⟨r.diags, true, true, r.data.branch, r.data.id, r.data.path, r.data.content,
        true, "Terraform Provider Git", "Write file with Terraform Provider Git.", false⟩
  else
    ⟨[("Invalid ID", "Expected id to have format branch:path")],
      false, false, "", "", "", "", false, "", "", false⟩

/-- A terraform framework string value: null, unknown, or a known string. -/
inductive TFString
  | nullVal
  | unknownVal
  | strVal (s : String)
  deriving DecidableEq

/-- The framework Equal on string values: equal kinds, and equal payloads
when both are known. -/
def TFString.equalTF : TFString → TFString → Bool
  | .nullVal, .nullVal => true
  | .unknownVal, .unknownVal => true
  | .strVal a, .strVal b => a == b
  | _, _ => false

/-- The planmodifier.StringRequest fields the modifier reads, plus the
bytes stored under the private key IgnoreUpdates (empty when the key is
absent). -/
structure PlanRequest where
  stateValue : TFString
  configValue : TFString
  planValue : TFString
  ignoreUpdatesPrivate : String
  deriving DecidableEq

/-- strings.EqualFold of the private bytes against the literal true:
case-insensitive equality, modelled by lowercasing every character and
comparing with the four lowercase letters. -/
def equalFoldTrue (s : String) : Bool := s.data.map Char.toLower == "true".data

/-- PlanModifyString of useStateIfUpdatesShouldBeIgnored
(repository_file.go lines 59-84): do nothing when the state value is null
or the config value is unknown; otherwise, when the private IgnoreUpdates
bytes case-fold to true and the config value differs from the state value,
replace the plan value with the state value. The function returns the
resulting plan value. -/
def PlanModifyString (req : PlanRequest) : TFString :=
  if req.stateValue = .nullVal then req.planValue
  else if req.configValue = .unknownVal then req.planValue
  else if equalFoldTrue req.ignoreUpdatesPrivate
      && !(req.configValue.equalTF req.stateValue) then req.stateValue
  else req.planValue

/-- Oracle with the target path absent in the cloned workspace and every
other step succeeding. -/
def envAbsent : OpEnv :=
  ⟨.stepOk, .errNotExist "no such file or directory", .stepOk, .stepOk, .stepOk, .bytes ""⟩

/-- Oracle with a directory at the target path and every other step
succeeding. -/
def envDir : OpEnv :=
  ⟨.stepOk, .statOk true, .stepOk, .stepOk, .stepOk, .bytes ""⟩

/-- Oracle with a regular file at the target path whose bytes read back as
hello, and every other step succeeding. -/
def envPresent : OpEnv :=
  ⟨.stepOk, .statOk false, .stepOk, .stepOk, .stepOk, .bytes "hello"⟩

/-- C1 counterexample: with ignore-updates false and the target path
absent, Read raises an error diagnostic and leaves the identifier
untouched, contradicting the claim that it clears the identifier and
returns without raising an error. -/
theorem read_absent_raises_and_keeps_id :
    (Read false ⟨"docs/readme.md", "main", "docs/readme.md", "old"⟩ envAbsent).diags ≠ [] ∧
    (Read false ⟨"docs/readme.md", "main", "docs/readme.md", "old"⟩ envAbsent).state.id
      = "docs/readme.md" := by
  constructor
  · decide
  · rfl

/-- C1 (amended): for every Read with ignore-updates false, when the probe
reports the path absent Read persists the flag as false, adds a File
Does-Not-Exist error diagnostic carrying the stat error text, and returns
the state with the identifier unchanged; when the probe reports a regular
file present it returns the bytes read as observed content, setting path
to the identifier. -/
theorem read_not_ignored_behaviour :
    ∀ (data : FileModel) (m b : String) (rm cm pm : StepRes) (rr : ReadRes),
    (Read false data ⟨.stepOk, .errNotExist m, rm, cm, pm, rr⟩ =
      ⟨"false", true, data, [("File Doesn\x27t Exist", m)], false⟩) ∧
    (Read false data ⟨.stepOk, .statOk false, rm, cm, pm, .bytes b⟩ =
      ⟨"false", true, { data with path := data.id, content := b }, [], false⟩) := by
  intro data m b rm cm pm rr
  exact ⟨rfl, rfl⟩

/-- C2 counterexample: the identifier a colon b colon c contains two
colons yet ImportState accepts it, producing branch a and path the
remainder after the first colon, contradicting the claim that an
identifier is accepted only with exactly one colon. -/
theorem import_two_colons_accepted :
    (ImportState "a:b:c" envPresent).diags = [] ∧
    (ImportState "a:b:c" envPresent).stateSet = true ∧
    (ImportState "a:b:c" envPresent).branch = "a" ∧
    (ImportState "a:b:c" envPresent).path = "b:c" := by
  decide

/-- C2 (amended): ImportState splits the identifier at the first colon.
For every identifier with no colon, Import fails with only the Invalid ID
diagnostic carrying the expected-format message, opens no session and
produces no imported state. For every branch text free of colons and
every path text, the identifier formed as branch, colon, path is
accepted: the cut yields exactly that branch and that path (the path may
itself contain further colons), the diagnostics are exactly those of the
read, and when the read finds a regular file the imported attribute set
is the branch and path from the identifier, the bytes read as content,
override true and the default author name and message. -/
theorem import_parse_behaviour (s : String) (hs : ':' ∉ s.data)
    (b p c : String) (hb : ':' ∉ b.data) (env : OpEnv) (rm cm pm : StepRes) :
    (ImportState s env =
      ⟨[("Invalid ID", "Expected id to have format branch:path")],
        false, false, "", "", "", "", false, "", "", false⟩) ∧
    (stringsCut (b ++ ":" ++ p) = (b, p, true)) ∧
    ((ImportState (b ++ ":" ++ p) env).diags = (ReadFile ⟨p, b, "", ""⟩ env).diags) ∧
    (ImportState (b ++ ":" ++ p) ⟨.stepOk, .statOk false, rm, cm, pm, .bytes c⟩ =
      ⟨[], true, true, b, p, p, c, true, "Terraform Provider Git",
        "Write file with Terraform Provider Git.", false⟩) := by
  have hgenNone : ∀ l : List Char, ':' ∉ l → cutColon l = none := by
    intro l
    induction l with
    | nil => intro _; rfl
    | cons ch rest ih =>
        intro h
        simp only [List.mem_cons, not_or] at h
        simp only [cutColon, ih h.2]
        rw [if_neg]
        exact fun hc => h.1 hc.symm
  have hgenSplit : ∀ l r : List Char, ':' ∉ l →
      cutColon (l ++ ':' :: r) = some (l, r) := by
    intro l r
    induction l with
    | nil => intro _; rfl
    | cons ch rest ih =>
        intro h
        simp only [List.mem_cons, not_or] at h
        have hne : ¬(ch = ':') := fun hc => h.1 hc.symm
        simp only [List.cons_append, cutColon, List.append_eq, ih h.2, if_neg hne]
  have hcutS : stringsCut s = (s, "", false) := by
    simp [stringsCut, hgenNone s.data hs]
  have hdata : (b ++ ":" ++ p).data = b.data ++ ':' :: p.data := by
    simp [String.data_append]
  have hcut2 : stringsCut (b ++ ":" ++ p) = (b, p, true) := by
    simp [stringsCut, hdata, hgenSplit b.data p.data hb]
  refine ⟨?_, hcut2, ?_, ?_⟩
  · simp [ImportState, hcutS]
  · cases hcr : (ReadFile ⟨p, b, "", ""⟩ env).crashed
    · by_cases hd : (ReadFile ⟨p, b, "", ""⟩ env).diags = []
      · simp [ImportState, hcut2, hcr, hd]
      · simp [ImportState, hcut2, hcr, hd]
    · simp [ImportState, hcut2, hcr]
  · simp [ImportState, hcut2, ReadFile, FileExists]

/-- C2 witness: a concrete identifier with no colon is rejected with no
imported state, and a concrete well-formed identifier imports branch,
path and content. -/
theorem import_parse_behaviour_witness :
    (ImportState "abc" envAbsent).stateSet = false ∧
    ImportState "main:docs/readme.md" envPresent =
      ⟨[], true, true, "main", "docs/readme.md", "docs/readme.md", "hello", true,
        "Terraform Provider Git", "Write file with Terraform Provider Git.", false⟩ := by
  have h1 := (import_parse_behaviour "abc" (by decide) "main" "docs/readme.md" "hello"
      (by decide) envAbsent .stepOk .stepOk .stepOk).1
  have h4 := (import_parse_behaviour "abc" (by decide) "main" "docs/readme.md" "hello"
      (by decide) envPresent .stepOk .stepOk .stepOk).2.2.2
  constructor
  · rw [h1]
  · have hid : ("main" ++ ":" ++ "docs/readme.md" : String) = "main:docs/readme.md" := by
      decide
    rw [← hid]
    exact h4

/-- C3: resolving credentials for the http or https scheme with no http
block declared dereferences the nil block and crashes instead of returning
a configuration error; with a populated http block it returns HTTP
credentials built from the username and password of the block, adding the
certificate authority for https. -/
theorem getAuthOpts_http_behaviour :
    ∀ (s : Option Ssh) (scan : ScanResult) (hb : Http),
    (getAuthOpts "http" none s scan = .nilPanic) ∧
    (getAuthOpts "https" none s scan = .nilPanic) ∧
    (getAuthOpts "http" (some hb) s scan =
      .authOk ⟨.tHTTP, hb.username, hb.password, none, none, none⟩) ∧
    (getAuthOpts "https" (some hb) s scan =
      .authOk ⟨.tHTTPS, hb.username, hb.password,
        some hb.certificateAuthority, none, none⟩) := by
  intro s scan hb
  exact ⟨rfl, rfl, rfl, rfl⟩

/-- C4 counterexample: with a directory at the target path, the Delete
retry body returns nil immediately, treating the directory as an
already-absent no-op success with no removal and no push; and the Update
retry body raises exactly the same File Does-Not-Exist error for a
directory as for an absent path, so the error is not distinct from
absence. -/
theorem delete_directory_is_noop :
    ((deleteAttempt envDir).outcome = .done ∧
     (deleteAttempt envDir).removeAttempted = false ∧
     (deleteAttempt envDir).pushAttempted = false) ∧
    ((updateAttempt "p" "c" envDir).outcome = .nonRetryable "File Doesn\x27t Exist" ∧
     (updateAttempt "p" "c" envAbsent).outcome = .nonRetryable "File Doesn\x27t Exist") := by
  decide

/-- C4 (amended): at the probe call sites, a directory at the target path
behaves as follows: ReadFile adds an error diagnostic whose detail is the
file-is-a-directory message, while absence carries the stat error text, so
Read distinguishes the two in the diagnostic detail; Update fails
permanently but with the same File Does-Not-Exist error used for absence;
Delete treats the directory as already absent and returns no-op success
without attempting removal, commit or push. -/
theorem probe_call_sites_directory :
    ∀ (data : FileModel) (m p c : String) (rm cm pm : StepRes) (rr : ReadRes),
    ((ReadFile data ⟨.stepOk, .statOk true, rm, cm, pm, rr⟩).diags =
      [("File Doesn\x27t Exist", "file is a directory")]) ∧
    ((ReadFile data ⟨.stepOk, .errNotExist m, rm, cm, pm, rr⟩).diags =
      [("File Doesn\x27t Exist", m)]) ∧
    ((updateAttempt p c ⟨.stepOk, .statOk true, rm, cm, pm, rr⟩).outcome =
      .nonRetryable "File Doesn\x27t Exist") ∧
    (deleteAttempt ⟨.stepOk, .statOk true, rm, cm, pm, rr⟩ =
      ⟨.done, true, false, false, false, []⟩) := by
  intro data m p c rm cm pm rr
  exact ⟨rfl, rfl, rfl, rfl⟩

/-- C5 counterexample: with the provider-level branch set to release and
the resource branch attribute set to dev, the session checks out release,
so the checked-out branch does not equal the resource branch attribute
even though that attribute is set. -/
theorem checkout_branch_provider_wins :
    checkedOutBranch "release" "dev" = "release" ∧ ("release" : String) ≠ "dev" := by
  decide

/-- C5 (amended): for sessions opened from Create, Update or Delete the
checked-out branch is the provider-level branch when set, otherwise the
resource branch attribute when set, otherwise main; for sessions opened
from ReadFile, which passes the resource branch attribute directly, the
checked-out branch is that attribute when set, otherwise main. -/
theorem checkout_branch_selection :
    ∀ pb db : String,
    (checkedOutBranch pb db =
      if pb = "" then (if db = "" then "main" else db) else pb) ∧
    (readCheckoutBranch db = if db = "" then "main" else db) := by
  intro pb db
  constructor
  · by_cases h : pb = "" <;>
      simp [checkedOutBranch, callSiteBranch, resolveCheckoutBranch, h]
  · rfl

theorem retryLoop_all_retryable :
    ∀ (msgs : List String) (m : String),
    retryLoop (msgs.map RetryOutcome.retryable ++ [RetryOutcome.retryable m]) =
      .failure m := by
  intro msgs m
  induction msgs with
  | nil => rfl
  | cons a as ih =>
      cases as with
      | nil => exact ih
      | cons b bs => exact ih

theorem retryLoop_nonRetryable_head :
    ∀ (e : String) (rest : List RetryOutcome),
    retryLoop (RetryOutcome.nonRetryable e :: rest) = .failure e := by
  intro e rest
  cases rest with
  | nil => rfl
  | cons b bs => rfl

/-- C6 counterexample: errors arising at the existence probe are not
always classified non-retryable aborts: at Delete the probe reports a
directory with its file-is-a-directory error, yet the attempt returns nil
and the whole retry envelope reports success rather than aborting with an
error; and a stat failure that is neither success nor not-exist crashes
Update and Delete instead of being classified at all. -/
theorem probe_error_not_aborting :
    (deleteAttempt envDir).outcome = RetryOutcome.done ∧
    retryLoop [(deleteAttempt envDir).outcome] = FinalResult.success ∧
    (updateAttempt "p" "c"
        ⟨.stepOk, .errOther "permission denied", .stepOk, .stepOk, .stepOk,
          .bytes ""⟩).outcome = RetryOutcome.crashed ∧
    (deleteAttempt
        ⟨.stepOk, .errOther "permission denied", .stepOk, .stepOk, .stepOk,
          .bytes ""⟩).outcome = RetryOutcome.crashed := by
  decide

/-- C6 (amended): within the retry envelope, an attempt of the Create,
Update or Delete body is classified retryable exactly when every earlier
step succeeded and the push call failed, carrying the push error; an
error from session opening, file removal or commit construction is
classified non-retryable, as is a non-not-exist stat error in Create and
a probe-reported not-found or directory in Update; but at the probe,
Delete swallows a reported not-found or directory as an immediate no-op
success instead of aborting with an error, and a stat failure that is
neither success nor not-exist crashes Update and Delete rather than being
classified; the envelope aborts on the first non-retryable error, and
when every admitted attempt fails retryable it surfaces the last push
error as the permanent failure. -/
theorem retry_envelope_classification :
    (∀ (p c : String) (ov : Bool) (env : OpEnv) (m : String),
        (createAttempt p c ov env).outcome = .retryable m ↔
          (env.clientResult = .stepOk ∧
           (match env.statResult with
            | .statOk _ => ov = true
            | .errNotExist _ => True
            | .errOther _ => False) ∧
           env.commitResult = .stepOk ∧ env.pushResult = .stepErr m)) ∧
    (∀ (p c : String) (env : OpEnv) (m : String),
        (updateAttempt p c env).outcome = .retryable m ↔
          (env.clientResult = .stepOk ∧ env.statResult = .statOk false ∧
           env.commitResult = .stepOk ∧ env.pushResult = .stepErr m)) ∧
    (∀ (env : OpEnv) (m : String),
        (deleteAttempt env).outcome = .retryable m ↔
          (env.clientResult = .stepOk ∧ env.statResult = .statOk false ∧
           env.removeResult = .stepOk ∧ env.commitResult = .stepOk ∧
           env.pushResult = .stepErr m)) ∧
    (∀ (e p c m : String) (ov : Bool) (st : StatResult) (rm cm pm : StepRes) (rr : ReadRes),
        ((createAttempt p c ov ⟨.stepErr e, st, rm, cm, pm, rr⟩).outcome = .nonRetryable e) ∧
        ((updateAttempt p c ⟨.stepErr e, st, rm, cm, pm, rr⟩).outcome = .nonRetryable e) ∧
        ((deleteAttempt ⟨.stepErr e, st, rm, cm, pm, rr⟩).outcome = .nonRetryable e) ∧
        ((createAttempt p c true ⟨.stepOk, .statOk false, rm, .stepErr e, pm, rr⟩).outcome =
          .nonRetryable e) ∧
        ((createAttempt p c ov ⟨.stepOk, .errNotExist m, rm, .stepErr e, pm, rr⟩).outcome =
          .nonRetryable e) ∧
        ((updateAttempt p c ⟨.stepOk, .statOk false, rm, .stepErr e, pm, rr⟩).outcome =
          .nonRetryable e) ∧
        ((deleteAttempt ⟨.stepOk, .statOk false, .stepErr e, cm, pm, rr⟩).outcome =
          .nonRetryable e) ∧
        ((deleteAttempt ⟨.stepOk, .statOk false, .stepOk, .stepErr e, pm, rr⟩).outcome =
          .nonRetryable e)) ∧
    (∀ (p c m : String) (ov : Bool) (rm cm pm : StepRes) (rr : ReadRes),
        ((createAttempt p c ov ⟨.stepOk, .errOther m, rm, cm, pm, rr⟩).outcome =
          .nonRetryable m) ∧
        ((updateAttempt p c ⟨.stepOk, .errNotExist m, rm, cm, pm, rr⟩).outcome =
          .nonRetryable "File Doesn\x27t Exist") ∧
        ((updateAttempt p c ⟨.stepOk, .statOk true, rm, cm, pm, rr⟩).outcome =
          .nonRetryable "File Doesn\x27t Exist") ∧
        ((updateAttempt p c ⟨.stepOk, .errOther m, rm, cm, pm, rr⟩).outcome = .crashed) ∧
        ((deleteAttempt ⟨.stepOk, .errNotExist m, rm, cm, pm, rr⟩).outcome = .done) ∧
        ((deleteAttempt ⟨.stepOk, .statOk true, rm, cm, pm, rr⟩).outcome = .done) ∧
        ((deleteAttempt ⟨.stepOk, .errOther m, rm, cm, pm, rr⟩).outcome = .crashed)) ∧
    (∀ (msgs : List String) (m : String),
        retryLoop (msgs.map RetryOutcome.retryable ++ [RetryOutcome.retryable m]) =
          .failure m) ∧
    (∀ (e : String) (rest : List RetryOutcome),
        retryLoop (RetryOutcome.nonRetryable e :: rest) = .failure e) := by
  refine ⟨?_, ?_, ?_, ?_, ?_, retryLoop_all_retryable, retryLoop_nonRetryable_head⟩
  · intro p c ov env m
    obtain ⟨cl, st, rm, cm, pm, rr⟩ := env
    cases cl <;> cases st <;> cases ov <;> cases cm <;> cases pm <;>
      simp [createAttempt, commitPushStep]
  · intro p c env m
    obtain ⟨cl, st, rm, cm, pm, rr⟩ := env
    cases cl <;> rcases st with d | ms | ms <;> cases cm <;> cases pm <;>
    first
      | (cases d <;> simp [updateAttempt, commitPushStep, FileExists])
      | simp [updateAttempt, commitPushStep, FileExists]
  · intro env m
    obtain ⟨cl, st, rm, cm, pm, rr⟩ := env
    cases cl <;> rcases st with d | ms | ms <;> cases rm <;> cases cm <;> cases pm <;>
    first
      | (cases d <;> simp [deleteAttempt, commitPushStep, FileExists])
      | simp [deleteAttempt, commitPushStep, FileExists]
  · intro e p c m ov st rm cm pm rr
    refine ⟨rfl, rfl, rfl, rfl, rfl, rfl, rfl, rfl⟩
  · intro p c m ov rm cm pm rr
    refine ⟨rfl, rfl, rfl, rfl, rfl, rfl, rfl⟩

/-- C7: for every prior state and every environment, Read with the
ignore-updates flag true persists the private flag as the string true,
requests no session (so no clone or network call occurs), returns the
prior observed state unmodified regardless of what the live file content
would be, and adds no diagnostics. -/
theorem read_ignore_updates :
    ∀ (data : FileModel) (env : OpEnv),
    Read true data env = ⟨"true", false, data, [], false⟩ := by
  intro data env
  rfl

/-- C8: for every plan request in which the proposed plan value coincides
with the configuration value, the drift-freeze modifier returns the
proposed value unchanged when the prior state value is null or the
proposed value is unknown; otherwise it returns the prior state value when
the persisted ignore-updates flag folds to true and prior differs from
proposed, and the proposed value unchanged in every other case. -/
theorem plan_modify_drift_freeze (req : PlanRequest)
    (hpc : req.planValue = req.configValue) :
    ((req.stateValue = .nullVal ∨ req.planValue = .unknownVal) →
      PlanModifyString req = req.planValue) ∧
    (req.stateValue ≠ .nullVal → req.planValue ≠ .unknownVal →
      equalFoldTrue req.ignoreUpdatesPrivate = true →
      req.configValue.equalTF req.stateValue = false →
      PlanModifyString req = req.stateValue) ∧
    (req.stateValue ≠ .nullVal → req.planValue ≠ .unknownVal →
      (equalFoldTrue req.ignoreUpdatesPrivate = false ∨
        req.configValue.equalTF req.stateValue = true) →
      PlanModifyString req = req.planValue) := by
  obtain ⟨sv, cv, pv, ig⟩ := req
  simp only at hpc
  subst hpc
  refine ⟨?_, ?_, ?_⟩
  · intro h
    rcases h with h | h
    · simp only at h
      simp [PlanModifyString, h]
    · simp only at h
      subst h
      by_cases hn : sv = TFString.nullVal <;>
        simp [PlanModifyString, hn, TFString.equalTF]
  · intro h1 h2 h3 h4
    simp only at h1 h2 h3 h4
    simp [PlanModifyString, h1, h2, h3, h4]
  · intro h1 h2 h3
    simp only at h1 h2
    rcases h3 with h3 | h3 <;> simp only at h3 <;>
      simp [PlanModifyString, h1, h2, h3]

/-- C8 witness: with a known prior value, a differing known proposed
value, and the flag persisted as true, the modifier plans the prior
value. -/
theorem plan_modify_drift_freeze_witness :
    PlanModifyString ⟨.strVal "prior", .strVal "new", .strVal "new", "true"⟩ =
      .strVal "prior" :=
  (plan_modify_drift_freeze ⟨.strVal "prior", .strVal "new", .strVal "new", "true"⟩
      rfl).2.1 (by decide) (by decide) (by decide) (by decide)

/-- C9: for every path and content, a Create attempt whose stat reports
the target present (file or directory) with override-on-create false fails
non-retryably with the cannot-override message, attempting neither commit
nor push, independently of the desired content and without ever reading
the existing content; when the target is present and override-on-create is
true, or when the target is absent, the attempt proceeds to commit, and
with a clean environment it pushes and succeeds. -/
theorem create_override_behaviour :
    ∀ (p c m : String) (d ov : Bool) (rm cm pm : StepRes) (rr : ReadRes),
    (createAttempt p c false ⟨.stepOk, .statOk d, rm, cm, pm, rr⟩ =
      ⟨.nonRetryable "cannot override existing file", true, false, false, false, [(p, c)]⟩) ∧
    ((createAttempt p c true ⟨.stepOk, .statOk d, rm, cm, pm, rr⟩).commitAttempted = true) ∧
    ((createAttempt p c ov ⟨.stepOk, .errNotExist m, rm, cm, pm, rr⟩).commitAttempted = true) ∧
    (createAttempt p c true ⟨.stepOk, .statOk d, rm, .stepOk, .stepOk, rr⟩ =
      ⟨.done, true, false, true, true, [(p, c)]⟩) ∧
    (createAttempt p c ov ⟨.stepOk, .errNotExist m, rm, .stepOk, .stepOk, rr⟩ =
      ⟨.done, true, false, true, true, [(p, c)]⟩) := by
  intro p c m d ov rm cm pm rr
  exact ⟨rfl, rfl, rfl, rfl, rfl⟩

/-- C10: the existence probe returns a defined error and boolean pair
exactly when the stat succeeded or failed with a not-exist error, and
crashes on every other stat failure: absence returns the stat error with
false, a directory returns the file-is-a-directory error with false, a
regular file returns no error with true, and any other stat error makes
the probe dereference the nil file info and crash, modelled as none. -/
theorem fileExists_total_iff :
    ∀ (r : StatResult) (m : String),
    ((FileExists r).isSome = !r.isOtherError) ∧
    (FileExists (.errNotExist m) = some (some m, false)) ∧
    (FileExists (.statOk true) = some (some "file is a directory", false)) ∧
    (FileExists (.statOk false) = some (none, true)) ∧
    (FileExists (.errOther m) = none) := by
  intro r m
  refine ⟨?_, rfl, rfl, rfl, rfl⟩
  cases r with
  | statOk d => cases d <;> rfl
  | errNotExist _ => rfl
  | errOther _ => rfl

end TPGit
